import Mathlib

/-!
Verification of VoiceStreamAI's connection-lifecycle and streaming core.

The development shallowly embeds the two components of the repository that
the properties concern:

* `SpeechClient` (the SessionBridge, from test-client-class/test.py):
  the command state machine `handle_messages` with its helpers
  `start_speech` / `stop_speech`, the transcript handler
  `voice_stream_callback`, and the reconnect/backoff logic of `connect`
  (`backoff_delay`, the `retry_delay` update, and one iteration of the
  while-True body).

* `VoiceStreamClient` (the StreamingClient, from
  client/voice_stream_ai_client.py and its duplicate in
  test-client-class/test.py; the two copies agree on everything modelled
  here): `connect` (handshake), `send_audio`, and one iteration of
  `receive_response`.

Sends on the host connection are modelled as succeeding (recorded as
events) unless a property is explicitly about a failing handle; random
jitter is modelled as an explicit rational parameter constrained to the
interval the code draws from.
-/

namespace SpeechClient

/-- Decoded inbound message on the bridge's host connection, as seen by
`SpeechClient.handle_messages` after `json.loads` and `data.get("cmd")`.
`malformed` is a payload on which `json.loads` raises
`json.JSONDecodeError`; `other` is a decodable message whose `cmd` tag
matches no branch (missing or unknown), which the loop skips. -/
inductive HostMsg where
  | start (lang : String)
  | stop
  | reload
  | other (cmd : String)
  | malformed (raw : String)
deriving DecidableEq, Repr

/-- One result element of an outbound `phrase` command
(`{"final": ..., "transcript": ..., "confidence": ...}`). -/
structure PhraseResult where
  final : Bool
  transcript : String
  confidence : ℚ
deriving DecidableEq, Repr

/-- Outbound JSON message from the bridge to the voice-control host. -/
inductive OutMsg where
  | hello (version : String)
  | startAck
  | endAck
  | phrase (results : List PhraseResult)
deriving DecidableEq, Repr

/-- Observable effect of processing bridge commands: a send on the host
connection, a `VoiceStreamClient` instantiation (with its `run`), or a
teardown (`stop` on the instance). Instances carry a numeric identity so
that instantiation/teardown counts are visible. -/
inductive HostEvent where
  | sendHost (m : OutMsg)
  | instantiate (id : Nat) (lang : String)
  | teardown (id : Nat)
deriving DecidableEq, Repr

/-- Mutable state of a `SpeechClient` instance: the `self.active` flag and
the `self.voice_stream_client` field (`some id` when an instance exists).
`nextId` supplies fresh instance identities. -/
structure BridgeState where
  active : Bool
  voice_stream_client : Option Nat
  nextId : Nat
deriving DecidableEq, Repr

/-- `SpeechClient.__init__`: `self.active = False`,
`self.voice_stream_client = None`. -/
def initBridgeState : BridgeState :=
  { active := false, voice_stream_client := none, nextId := 0 }

/-- `SpeechClient.start_speech`: always sends the `{"cmd":"start"}` ack,
then instantiates and runs a `VoiceStreamClient` only if
`self.voice_stream_client` is not already set. -/
def start_speech (s : BridgeState) (lang : String) : BridgeState × List HostEvent :=
  match s.voice_stream_client with
  | none =>
      ({ s with voice_stream_client := some s.nextId, nextId := s.nextId + 1 },
       [HostEvent.sendHost OutMsg.startAck, HostEvent.instantiate s.nextId lang])
  | some _ => (s, [HostEvent.sendHost OutMsg.startAck])

/-- `SpeechClient.stop_speech`: always sends the `{"cmd":"end"}` ack, then
stops and clears the `VoiceStreamClient` only if one exists. -/
def stop_speech (s : BridgeState) : BridgeState × List HostEvent :=
  match s.voice_stream_client with
  | some id =>
      ({ s with voice_stream_client := none },
       [HostEvent.sendHost OutMsg.endAck, HostEvent.teardown id])
  | none => (s, [HostEvent.sendHost OutMsg.endAck])

/-- How `SpeechClient.handle_messages` left its `async for` loop:
`streamEnded` when the inbound stream was exhausted, `reloadReturn` for
the explicit `return` on a `reload` command, `decodeError` when
`json.loads` raised on an undecodable message (the exception propagates
out of `handle_messages`, so later messages of the same connection are
never processed). -/
inductive LoopExit where
  | streamEnded
  | reloadReturn
  | decodeError
deriving DecidableEq, Repr

/-- `SpeechClient.handle_messages` run over a list of inbound messages:
returns the final state, the events performed in order, and how the loop
exited. On `start`, the guard `if not self.active` makes the command a
no-op while active; otherwise `self.active = True` then `start_speech`.
On `stop`, `self.active = False` then `stop_speech`, unconditionally.
An undecodable message aborts the loop at once with no further effect. -/
def handle_messages : BridgeState → List HostMsg → BridgeState × List HostEvent × LoopExit
  | s, [] => (s, [], LoopExit.streamEnded)
  | s, HostMsg.malformed _ :: _ => (s, [], LoopExit.decodeError)
  | s, HostMsg.reload :: _ => (s, [], LoopExit.reloadReturn)
  | s, HostMsg.start lang :: rest =>
      if s.active then handle_messages s rest
      else
        let r1 := start_speech { s with active := true } lang
        let r2 := handle_messages r1.1 rest
        (r2.1, r1.2 ++ r2.2.1, r2.2.2)
  | s, HostMsg.stop :: rest =>
      let r1 := stop_speech { s with active := false }
      let r2 := handle_messages r1.1 rest
      (r2.1, r1.2 ++ r2.2.1, r2.2.2)
  | s, HostMsg.other _ :: rest => handle_messages s rest

/-- Result of `json.loads` on an inbound transcript payload inside
`SpeechClient.voice_stream_callback`. A decoded payload carries the
optional `text` and `confidence` fields read with `.get`, plus any other
fields of the JSON object, which no code path reads. -/
structure DecodedPayload where
  text : Option String
  confidence : Option ℚ
  otherFields : List (String × String)
deriving DecidableEq, Repr

/-- Inbound transcript payload: either undecodable (`json.loads` raises
`json.JSONDecodeError`) or decoded. -/
inductive TranscriptPayload where
  | malformed (raw : String)
  | decoded (p : DecodedPayload)
deriving DecidableEq, Repr

/-- `SpeechClient.voice_stream_callback`: on a decodable payload, builds
`results = [{"final": True, "transcript": data.get("text",""),
"confidence": data.get("confidence", 0.0)}]` and sends one
`{"cmd":"phrase","results":...}`; a `json.JSONDecodeError` is caught and
logged. The returned Bool records whether an exception escaped the
handler (the `except` clauses make it `false` on every path). -/
def voice_stream_callback (s : BridgeState) (r : TranscriptPayload) :
    BridgeState × List HostEvent × Bool :=
  match r with
  | TranscriptPayload.malformed _ => (s, [], false)
  | TranscriptPayload.decoded p =>
      (s,
       [HostEvent.sendHost (OutMsg.phrase
         [{ final := true, transcript := p.text.getD "",
            confidence := p.confidence.getD 0 }])],
       false)

/-- `SpeechClient.backoff_delay`: `asyncio.sleep(delay + jitter)` where
`jitter = random.uniform(0, 0.1 * delay)`. The jitter is an explicit
parameter here; theorems constrain it to the drawn-from interval. -/
def backoff_sleep (delay jitter : ℚ) : ℚ := delay + jitter

/-- The `retry_delay` update after a failed iteration of
`SpeechClient.connect`: `retry_delay = min(retry_delay * 2,
self.max_retry_delay)`. -/
def next_retry_delay (delay cap : ℚ) : ℚ := min (delay * 2) cap

/-- The undamped `retry_delay` in effect at the n-th consecutive failing
iteration of `SpeechClient.connect` (n = 0 is the first failure after
the initial `retry_delay = 0.5`). -/
def retry_delay_seq (cap : ℚ) : Nat → ℚ
  | 0 => 1 / 2
  | n + 1 => next_retry_delay (retry_delay_seq cap n) cap

/-- How one iteration of the `while True` body of `SpeechClient.connect`
ended: `websockets.connect` itself raised (`connectFailed`); or the
connection succeeded, `hello` was sent and `retry_delay` reset to 0.5,
after which `handle_messages` either returned (`helloThenReturn`, e.g.
on `reload`) or raised (`helloThenRaised`: a `ConnectionClosed` or any
other exception such as a `json.JSONDecodeError`, both caught by the
`except` clauses). -/
inductive IterOutcome where
  | connectFailed
  | helloThenReturn
  | helloThenRaised
deriving DecidableEq, Repr

/-- Observable outcome of one iteration of `SpeechClient.connect`'s loop:
the `retry_delay` carried into the next iteration, the sleeps performed
by `backoff_delay` during this iteration, and whether the `hello`
message was sent. -/
structure IterResult where
  newDelay : ℚ
  sleeps : List ℚ
  sentHello : Bool
deriving DecidableEq, Repr

/-- One iteration of the `while True` body of `SpeechClient.connect`,
starting with `retry_delay = rd`, `max_retry_delay = cap`, and jitter
`j` for any backoff performed. On success the code sends `hello` and
resets `retry_delay` to 0.5 before running `handle_messages`, so an
exception raised later in the same iteration backs off from 0.5, not
from `rd`. -/
def connectIter (rd cap j : ℚ) : IterOutcome → IterResult
  | IterOutcome.connectFailed =>
      { newDelay := next_retry_delay rd cap,
        sleeps := [backoff_sleep rd j], sentHello := false }
  | IterOutcome.helloThenReturn =>
      { newDelay := 1 / 2, sleeps := [], sentHello := true }
  | IterOutcome.helloThenRaised =>
      { newDelay := next_retry_delay (1 / 2) cap,
        sleeps := [backoff_sleep (1 / 2) j], sentHello := true }

end SpeechClient

namespace VoiceStreamClient

/-- Liveness of an established websocket handle. The code's own check
(`if self.ws:`) only distinguishes `None` from established; whether an
established handle is still open is a property of the transport. -/
inductive HandleStatus where
  | opened
  | closed
deriving DecidableEq, Repr

/-- A message sent to the transcription service: the JSON configuration
handshake or one binary audio frame (raw PCM bytes). -/
inductive VsMsg where
  | streamConfig (sampleRate bufferSize channels : Nat) (language : String)
      (processingStrategy : String) (chunkLength chunkOffset : ℚ)
  | audioFrame (data : List Nat)
deriving DecidableEq, Repr

/-- An established connection to the transcription service: its transport
status and the trace of messages sent on it, in order. -/
structure VsConn where
  status : HandleStatus
  sent : List VsMsg
deriving DecidableEq, Repr

/-- State of a `VoiceStreamClient` instance: the configuration fields set
by `__init__` and `self.ws` (`none` until `connect` runs). -/
structure VsState where
  uri : String
  language : String
  sample_rate : Nat
  buffer_size : Nat
  chunk_length_seconds : ℚ
  chunk_offset_seconds : ℚ
  ws : Option VsConn
deriving DecidableEq, Repr

/-- `VoiceStreamClient.__init__` with its default keyword arguments:
`language="english"`, `sample_rate=16000`, `buffer_size=1024`,
`chunk_length_seconds=3`, `chunk_offset_seconds=0.1`, `self.ws = None`. -/
def initVsState (uri : String) : VsState :=
  { uri := uri, language := "english", sample_rate := 16000,
    buffer_size := 1024, chunk_length_seconds := 3,
    chunk_offset_seconds := 1 / 10, ws := none }

/-- The JSON configuration message `VoiceStreamClient.connect` builds from
the instance fields. -/
def configMsg (s : VsState) : VsMsg :=
  VsMsg.streamConfig s.sample_rate s.buffer_size 1 s.language
    "silence_at_end_of_chunk" s.chunk_length_seconds s.chunk_offset_seconds

/-- `VoiceStreamClient.connect`: opens a fresh websocket (replacing
`self.ws`) and sends the configuration message on it as its first
message. -/
def connect (s : VsState) : VsState :=
  { s with ws := some { status := HandleStatus.opened, sent := [configMsg s] } }

/-- Result of a `send_audio` call as seen by its caller. -/
inductive SendOutcome where
  | sent
  | loggedNotEstablished
  | raised
deriving DecidableEq, Repr

/-- `VoiceStreamClient.send_audio`: if `self.ws` is `None`, logs
"WebSocket connection is not established" and returns normally without
sending and without raising; otherwise awaits `self.ws.send(audio_data)`,
which appends the frame on an open transport and raises (uncaught here)
on a closed one. -/
def send_audio (s : VsState) (data : List Nat) : VsState × SendOutcome :=
  match s.ws with
  | none => (s, SendOutcome.loggedNotEstablished)
  | some c =>
      match c.status with
      | HandleStatus.opened =>
          ({ s with ws := some { status := HandleStatus.opened,
                                 sent := c.sent ++ [VsMsg.audioFrame data] } },
           SendOutcome.sent)
      | HandleStatus.closed => (s, SendOutcome.raised)

/-- A sequence of frames handed to the transmission path in order, each
transmitted by one `send_audio` call. -/
def sendAll (s : VsState) (frames : List (List Nat)) : VsState :=
  frames.foldl (fun st d => (send_audio st d).1) s

/-- What one iteration of `VoiceStreamClient.receive_response` observed
while awaiting `self.ws.recv()`. -/
inductive RecvObs where
  | message (raw : String)
  | connClosed
  | otherError
deriving DecidableEq, Repr

/-- Action taken by one iteration of `receive_response`. -/
inductive RecvAction where
  | delivered (raw : String)
  | reconnected
  | errorLogged
  | waitedNoConn
deriving DecidableEq, Repr

/-- One iteration of the `while not self.stop_event.is_set()` loop of
`VoiceStreamClient.receive_response`: with no established handle it
sleeps and retries; on a received message it invokes the callback; on
`websockets.ConnectionClosed` it logs and awaits `self.connect()` (one
call, re-running the handshake with the instance's current, last-used
configuration); on any other exception it logs and continues. The Nat
counts the `connect` calls the iteration performed. -/
def receive_step (s : VsState) (obs : RecvObs) : VsState × RecvAction × Nat :=
  match s.ws with
  | none => (s, RecvAction.waitedNoConn, 0)
  | some _ =>
      match obs with
      | RecvObs.message raw => (s, RecvAction.delivered raw, 0)
      | RecvObs.connClosed => (connect s, RecvAction.reconnected, 1)
      | RecvObs.otherError => (s, RecvAction.errorLogged, 0)

end VoiceStreamClient

open SpeechClient VoiceStreamClient

/-! Helper lemmas shared by the claim theorems. -/

/-- Closed form of the undamped retry delay: doubling from 0.5, capped. -/
theorem retry_delay_seq_closed (cap : ℚ) (hcap : 1 / 2 ≤ cap) :
    ∀ n, retry_delay_seq cap n = min ((1 / 2) * 2 ^ n) cap := by
  intro n
  induction n with
  | zero =>
      have h1 : (1 : ℚ) / 2 * 2 ^ 0 = 1 / 2 := by norm_num
      rw [retry_delay_seq, h1, min_eq_left hcap]
  | succ n ih =>
      have hc0 : (0 : ℚ) ≤ cap := le_trans (by norm_num) hcap
      rw [retry_delay_seq, ih, next_retry_delay,
          min_mul_of_nonneg _ _ (by norm_num : (0 : ℚ) ≤ 2), min_assoc]
      have h2 : min (cap * 2) cap = cap := min_eq_right (by linarith)
      have h3 : (1 : ℚ) / 2 * 2 ^ n * 2 = 1 / 2 * 2 ^ (n + 1) := by ring
      rw [h2, h3]

/-- After enough consecutive failures the undamped retry delay equals the
cap. -/
theorem retry_delay_eventually_cap (cap : ℚ) (hcap : 1 / 2 ≤ cap) :
    ∃ k, ∀ n, k ≤ n → retry_delay_seq cap n = cap := by
  obtain ⟨m, hm⟩ := exists_nat_gt (2 * cap)
  refine ⟨m, fun n hn => ?_⟩
  rw [retry_delay_seq_closed cap hcap n]
  apply min_eq_right
  have h2 : (m : ℚ) ≤ 2 ^ m := by
    exact_mod_cast Nat.le_of_lt (Nat.lt_two_pow m)
  have h3 : (2 : ℚ) ^ m ≤ 2 ^ n := pow_le_pow_right₀ (by norm_num) hn
  linarith

/-- C1: one round of the backoff of SpeechClient.connect sleeps the
current undamped delay `min(2 * previousDelay, cap)` plus jitter, so the
slept delay lies in `[min(2 * previousDelay, cap), 1.1 * min(2 *
previousDelay, cap)]`; with the initial `retry_delay = 0.5` the first
slept delay lies in `[0.5, 0.55]`; once enough consecutive failures have
occurred the slept delay lies in `[cap, 1.1 * cap]`; and every successful
connection resets the undamped delay to the base 0.5 right after the
hello message is sent (so a failure after a success backs off from 0.5,
and the delay carried out of a clean iteration is 0.5). Jitter is
quantified over the interval `[0, 0.1 * delay]` the code draws from. -/
theorem backoff_bounds (cap : ℚ) (_hcap : 0 ≤ cap) :
    (∀ prev j, 0 ≤ prev → 0 ≤ j →
        j ≤ 1 / 10 * next_retry_delay prev cap →
        next_retry_delay prev cap ≤ backoff_sleep (next_retry_delay prev cap) j ∧
        backoff_sleep (next_retry_delay prev cap) j ≤
          11 / 10 * next_retry_delay prev cap) ∧
    (∀ j, 0 ≤ j → j ≤ 1 / 10 * (1 / 2) →
        1 / 2 ≤ backoff_sleep (1 / 2) j ∧ backoff_sleep (1 / 2) j ≤ 11 / 20) ∧
    (1 / 2 ≤ cap →
        ∃ k, ∀ n j, k ≤ n → 0 ≤ j → j ≤ 1 / 10 * cap →
          cap ≤ backoff_sleep (retry_delay_seq cap n) j ∧
          backoff_sleep (retry_delay_seq cap n) j ≤ 11 / 10 * cap) ∧
    (∀ rd j,
        (connectIter rd cap j IterOutcome.helloThenReturn).newDelay = 1 / 2 ∧
        (connectIter rd cap j IterOutcome.helloThenRaised).sleeps =
          [backoff_sleep (1 / 2) j] ∧
        (connectIter rd cap j IterOutcome.helloThenRaised).sentHello = true) := by
  refine ⟨?_, ?_, ?_, ?_⟩
  · intro prev j _ hj hub
    unfold backoff_sleep
    constructor <;> linarith
  · intro j hj hub
    unfold backoff_sleep
    constructor <;> linarith
  · intro hc
    obtain ⟨k, hk⟩ := retry_delay_eventually_cap cap hc
    refine ⟨k, fun n j hn hj hub => ?_⟩
    rw [hk n hn]
    unfold backoff_sleep
    constructor <;> linarith
  · intro rd j
    exact ⟨rfl, rfl, rfl⟩

/-- Witness for `backoff_bounds` at `cap = 30` (the default
`max_retry_delay`): the first delay with jitter 1/40 lies in
`[0.5, 0.55]`, a round from `previousDelay = 1` with jitter 1/5 lies in
`[2, 2.2]`, and a clean iteration carries delay 0.5 out. -/
theorem backoff_bounds_witness :
    ((1 : ℚ) / 2 ≤ backoff_sleep (1 / 2) (1 / 40) ∧
      backoff_sleep (1 / 2) (1 / 40) ≤ 11 / 20) ∧
    (next_retry_delay 1 30 ≤ backoff_sleep (next_retry_delay 1 30) (1 / 5) ∧
      backoff_sleep (next_retry_delay 1 30) (1 / 5) ≤
        11 / 10 * next_retry_delay 1 30) ∧
    (connectIter 7 30 (1 / 40) IterOutcome.helloThenReturn).newDelay = 1 / 2 :=
  ⟨(backoff_bounds 30 (by norm_num)).2.1 (1 / 40) (by norm_num) (by norm_num),
   (backoff_bounds 30 (by norm_num)).1 1 (1 / 5) (by norm_num) (by norm_num)
     (by rw [next_retry_delay]; norm_num [min_def]),
   ((backoff_bounds 30 (by norm_num)).2.2.2 7 (1 / 40)).1⟩

/-- The command loop preserves the correspondence between the active flag
and the existence of a VoiceStreamClient instance. -/
theorem handle_messages_bridgeInv (ms : List HostMsg) (s : BridgeState)
    (h : s.active = true ↔ s.voice_stream_client ≠ none) :
    ((handle_messages s ms).1.active = true ↔
      (handle_messages s ms).1.voice_stream_client ≠ none) := by
  induction ms generalizing s with
  | nil => simpa [handle_messages] using h
  | cons m rest ih =>
      cases m with
      | malformed raw => simpa [handle_messages] using h
      | reload => simpa [handle_messages] using h
      | other cmd => simpa [handle_messages] using ih s h
      | start lang =>
          by_cases ha : s.active = true
          · simpa [handle_messages, ha] using ih s h
          · have hvc : s.voice_stream_client = none := by
              by_contra hne
              exact ha (h.mpr hne)
            simp only [handle_messages, ha, if_false, Bool.false_eq_true,
              start_speech, hvc]
            exact ih _ (by simp)
      | stop =>
          rcases hvc : s.voice_stream_client with _ | id
          · simp only [handle_messages, stop_speech, hvc]
            exact ih _ (by simp [hvc])
          · simp only [handle_messages, stop_speech, hvc]
            exact ih _ (by simp)

/-- C9: from the initial bridge state, after processing any sequence of
inbound commands (host sends always succeed in this model), the active
flag is true exactly when a VoiceStreamClient instance exists. Every
prefix of a command sequence is itself a command sequence, so this holds
after each processed command. -/
theorem active_iff_client_exists (ms : List HostMsg) :
    ((handle_messages initBridgeState ms).1.active = true ↔
      (handle_messages initBridgeState ms).1.voice_stream_client ≠ none) :=
  handle_messages_bridgeInv ms initBridgeState (by simp [initBridgeState])

/-- C4: a start command while active is ignored (no ack, no second
instantiation, state unchanged), and two consecutive start commands from
idle produce exactly one instantiation. -/
theorem start_while_active_ignored :
    (∀ s lang, s.active = true →
        handle_messages s [HostMsg.start lang] = (s, [], LoopExit.streamEnded)) ∧
    (∀ s l1 l2, s.active = false → s.voice_stream_client = none →
        handle_messages s [HostMsg.start l1, HostMsg.start l2] =
          ((⟨true, some s.nextId, s.nextId + 1⟩ : BridgeState),
           [HostEvent.sendHost OutMsg.startAck,
            HostEvent.instantiate s.nextId l1],
           LoopExit.streamEnded)) := by
  constructor
  · intro s lang h
    simp [handle_messages, h]
  · intro s l1 l2 ha hv
    simp [handle_messages, ha, hv, start_speech]

/-- Witness for `start_while_active_ignored`: a concrete active state
ignores a start command, and from the initial state two starts
instantiate exactly once. -/
theorem start_while_active_ignored_witness :
    handle_messages ⟨true, some 3, 4⟩ [HostMsg.start "english"] =
      (⟨true, some 3, 4⟩, [], LoopExit.streamEnded) ∧
    handle_messages initBridgeState
        [HostMsg.start "english", HostMsg.start "german"] =
      (⟨true, some 0, 1⟩,
       [HostEvent.sendHost OutMsg.startAck, HostEvent.instantiate 0 "english"],
       LoopExit.streamEnded) :=
  ⟨start_while_active_ignored.1 ⟨true, some 3, 4⟩ "english" rfl,
   start_while_active_ignored.2 initBridgeState "english" "german" rfl rfl⟩

/-- C2 counterexample: processing a stop command in the initial (idle)
bridge state does send a message to the voice-control host — the
unconditional end ack of stop_speech — so the claim that a stop while
idle sends no message fails on the code. -/
theorem stop_idle_counterexample :
    handle_messages initBridgeState [HostMsg.stop] =
      (initBridgeState, [HostEvent.sendHost OutMsg.endAck],
       LoopExit.streamEnded) ∧
    [HostEvent.sendHost OutMsg.endAck] ≠ ([] : List HostEvent) :=
  ⟨rfl, by decide⟩

/-- C2 amended: a stop command while idle raises no error, performs no
teardown and leaves the state unchanged (still idle), but it does send
one end ack to the host; two consecutive stop commands from a state
holding an instance perform exactly one teardown (with an end ack sent
each time). -/
theorem stop_idle_amended :
    (∀ s, s.active = false → s.voice_stream_client = none →
        handle_messages s [HostMsg.stop] =
          (s, [HostEvent.sendHost OutMsg.endAck], LoopExit.streamEnded)) ∧
    (∀ s id, s.voice_stream_client = some id →
        handle_messages s [HostMsg.stop, HostMsg.stop] =
          ((⟨false, none, s.nextId⟩ : BridgeState),
           [HostEvent.sendHost OutMsg.endAck, HostEvent.teardown id,
            HostEvent.sendHost OutMsg.endAck],
           LoopExit.streamEnded)) := by
  constructor
  · intro s ha hv
    rcases s with ⟨a, v, n⟩
    simp only at ha hv
    subst ha
    subst hv
    simp [handle_messages, stop_speech]
  · intro s id hv
    simp [handle_messages, stop_speech, hv]

/-- Witness for `stop_idle_amended`: the initial state and a concrete
active state with instance id 5. -/
theorem stop_idle_amended_witness :
    handle_messages initBridgeState [HostMsg.stop] =
      (initBridgeState, [HostEvent.sendHost OutMsg.endAck],
       LoopExit.streamEnded) ∧
    handle_messages ⟨true, some 5, 6⟩ [HostMsg.stop, HostMsg.stop] =
      (⟨false, none, 6⟩,
       [HostEvent.sendHost OutMsg.endAck, HostEvent.teardown 5,
        HostEvent.sendHost OutMsg.endAck],
       LoopExit.streamEnded) :=
  ⟨stop_idle_amended.1 initBridgeState rfl rfl,
   stop_idle_amended.2 ⟨true, some 5, 6⟩ 5 rfl⟩

/-- C3 counterexample: an undecodable message aborts the command loop of
handle_messages with a decode error, and the start command following it
on the same connection is never processed (no ack, no instantiation),
whereas the same start alone is processed — so the claim that processing
of subsequent messages on the same connection continues fails on the
code. -/
theorem malformed_counterexample :
    handle_messages initBridgeState
        [HostMsg.malformed "oops", HostMsg.start "english"] =
      (initBridgeState, [], LoopExit.decodeError) ∧
    handle_messages initBridgeState [HostMsg.start "english"] =
      (⟨true, some 0, 1⟩,
       [HostEvent.sendHost OutMsg.startAck, HostEvent.instantiate 0 "english"],
       LoopExit.streamEnded) :=
  ⟨rfl, rfl⟩

/-- C3 amended: an undecodable inbound message makes json.loads raise out
of handle_messages, aborting the command loop at that message with no
further effect; the broad except clause of the connect loop then logs
the error, sleeps one backoff (from the post-hello base 0.5) and
reconnects, so processing resumes only on a fresh connection. -/
theorem malformed_aborts_then_reconnect (s : BridgeState) (raw : String)
    (rest : List HostMsg) (rd cap j : ℚ) :
    handle_messages s (HostMsg.malformed raw :: rest) =
      (s, [], LoopExit.decodeError) ∧
    (connectIter rd cap j IterOutcome.helloThenRaised).sleeps =
      [backoff_sleep (1 / 2) j] ∧
    (connectIter rd cap j IterOutcome.helloThenRaised).newDelay =
      next_retry_delay (1 / 2) cap :=
  ⟨rfl, rfl, rfl⟩

/-- C7: a non-JSON transcript payload delivered to voice_stream_callback
while the bridge is active is caught (no exception escapes the handler),
nothing is sent, and the bridge state — the active flag and the
VoiceStreamClient instance — is unchanged. -/
theorem malformed_transcript_resilient (s : BridgeState) (raw : String)
    (_h : s.active = true) :
    voice_stream_callback s (TranscriptPayload.malformed raw) =
      (s, [], false) := rfl

/-- Witness for `malformed_transcript_resilient` at a concrete active
state. -/
theorem malformed_transcript_resilient_witness :
    voice_stream_callback ⟨true, some 0, 1⟩ (TranscriptPayload.malformed "oops") =
      (⟨true, some 0, 1⟩, [], false) :=
  malformed_transcript_resilient ⟨true, some 0, 1⟩ "oops" rfl

/-- C10: every decodable transcript payload is forwarded as exactly one
phrase command whose results field is a single-element list with final
true, transcript the text field of the payload (empty string when
missing) and confidence the confidence field (0 when missing); the other
fields of the payload play no part, and the handler neither raises nor
changes the bridge state. -/
theorem transcript_forwarded (s : BridgeState) (p : DecodedPayload) :
    ∃ res : PhraseResult,
      voice_stream_callback s (TranscriptPayload.decoded p) =
        (s, [HostEvent.sendHost (OutMsg.phrase [res])], false) ∧
      res.final = true ∧
      res.transcript = p.text.getD "" ∧
      res.confidence = p.confidence.getD 0 :=
  ⟨_, rfl, rfl, rfl, rfl⟩

/-- Whether a message to the transcription service is the configuration
handshake. -/
def isStreamConfig : VsMsg → Bool
  | VsMsg.streamConfig .. => true
  | VsMsg.audioFrame _ => false

/-- Audio frames are never the configuration handshake. -/
theorem filter_streamConfig_frames (l : List (List Nat)) :
    (l.map VsMsg.audioFrame).filter isStreamConfig = [] := by
  induction l with
  | nil => rfl
  | cons d r ih => simp [isStreamConfig, ih]

/-- Sending frames on an open connection appends them, in order, to the
sent trace. -/
theorem sendAll_open_trace (frames : List (List Nat)) :
    ∀ (s : VsState) (t : List VsMsg),
      s.ws = some { status := HandleStatus.opened, sent := t } →
      (sendAll s frames).ws =
        some { status := HandleStatus.opened,
               sent := t ++ frames.map VsMsg.audioFrame } := by
  induction frames with
  | nil =>
      intro s t h
      simpa [sendAll] using h
  | cons d rest ih =>
      intro s t h
      have hstep : (send_audio s d).1.ws =
          some { status := HandleStatus.opened,
                 sent := t ++ [VsMsg.audioFrame d] } := by
        simp [send_audio, h]
      have := ih (send_audio s d).1 (t ++ [VsMsg.audioFrame d]) hstep
      simpa [sendAll, List.append_assoc] using this

/-- C6: after a successful connect, the sent trace of the connection is
the configuration message followed by exactly the frames handed to the
transmission path, in their hand-off order; so the single StreamConfig
precedes every AudioFrame and no reordering occurs. -/
theorem config_precedes_frames (s : VsState) (frames : List (List Nat)) :
    (sendAll (connect s) frames).ws =
      some { status := HandleStatus.opened,
             sent := configMsg s :: frames.map VsMsg.audioFrame } ∧
    (configMsg s :: frames.map VsMsg.audioFrame).filter isStreamConfig =
      [configMsg s] := by
  constructor
  · have h := sendAll_open_trace frames (connect s) [configMsg s] rfl
    simpa using h
  · simp [configMsg, isStreamConfig, filter_streamConfig_frames frames]

/-- C5: when the receive loop observes a ConnectionClosed, the iteration
performs exactly one reconnect by re-running connect on the current
state (so with the last-used configuration), and the first — hence next
— message sent on the freshly opened connection is a fresh StreamConfig
built from that configuration, not an audio frame. -/
theorem reconnect_resends_config (s : VsState) (c : VsConn)
    (h : s.ws = some c) :
    receive_step s RecvObs.connClosed = (connect s, RecvAction.reconnected, 1) ∧
    (connect s).ws =
      some { status := HandleStatus.opened, sent := [configMsg s] } ∧
    isStreamConfig (configMsg s) = true := by
  refine ⟨?_, rfl, rfl⟩
  simp [receive_step, h]

/-- Witness for `reconnect_resends_config`: a freshly connected client
with the default configuration. -/
theorem reconnect_resends_config_witness :
    receive_step (connect (initVsState "ws://127.0.0.1:8765")) RecvObs.connClosed =
      (connect (connect (initVsState "ws://127.0.0.1:8765")),
       RecvAction.reconnected, 1) :=
  (reconnect_resends_config (connect (initVsState "ws://127.0.0.1:8765"))
    { status := HandleStatus.opened,
      sent := [configMsg (initVsState "ws://127.0.0.1:8765")] } rfl).1

/-- C8 counterexample: send_audio on a client whose handle was never
established logs and returns normally — the outcome is not an error
surfaced to the caller — so the claim that sendFrame on a
not-established handle fails with a SendFailed surfaced to the caller
fails on the code (the frame is silently dropped instead). -/
theorem send_unestablished_counterexample :
    send_audio (initVsState "ws://127.0.0.1:8765") [0, 1] =
      (initVsState "ws://127.0.0.1:8765", SendOutcome.loggedNotEstablished) ∧
    SendOutcome.loggedNotEstablished ≠ SendOutcome.raised ∧
    SendOutcome.loggedNotEstablished ≠ SendOutcome.sent :=
  ⟨rfl, by decide, by decide⟩

/-- C8 amended: send_audio on a not-established handle (self.ws is None)
only logs and returns normally, surfacing no error and sending nothing;
on an established handle whose transport is closed, the underlying send
raises and the exception propagates uncaught to the caller (so the call
does not silently succeed in that case). -/
theorem send_audio_failure_modes (s : VsState) (data : List Nat) :
    (s.ws = none →
        send_audio s data = (s, SendOutcome.loggedNotEstablished)) ∧
    (∀ t, s.ws = some { status := HandleStatus.closed, sent := t } →
        send_audio s data = (s, SendOutcome.raised)) := by
  constructor
  · intro h
    simp [send_audio, h]
  · intro t h
    simp [send_audio, h]

/-- Witness for `send_audio_failure_modes`: the freshly initialized
client (no handle) and a client holding a closed handle. -/
theorem send_audio_failure_modes_witness :
    send_audio (initVsState "ws://127.0.0.1:8765") [7] =
      (initVsState "ws://127.0.0.1:8765", SendOutcome.loggedNotEstablished) ∧
    send_audio
        { initVsState "ws://127.0.0.1:8765" with
            ws := some { status := HandleStatus.closed, sent := [] } } [7] =
      ({ initVsState "ws://127.0.0.1:8765" with
           ws := some { status := HandleStatus.closed, sent := [] } },
       SendOutcome.raised) :=
  ⟨(send_audio_failure_modes (initVsState "ws://127.0.0.1:8765") [7]).1 rfl,
   (send_audio_failure_modes
      { initVsState "ws://127.0.0.1:8765" with
          ws := some { status := HandleStatus.closed, sent := [] } } [7]).2 [] rfl⟩
